import Mathlib

/-!
Shallow embedding of modules/video_coding/decoder_database.cc.

The database maps payload types to codec configurations (dec_map_),
keeps borrowed references to externally supplied decoders
(dec_external_map_), and caches at most one live decoder engine
(ptr_decoder_) together with the configuration snapshot it was
initialized with (receive_codec_).

External collaborators (the decoder engines, the factory availability,
InitDecode and RegisterDecodeCompleteCallback status codes) are modelled
by an environment record Env.  A decoder engine handle is identified by
the identity of the wrapped VideoDecoder instance, which is what the
IsSameDecoder check in the source compares.
-/

/-- VideoCodecType of common_types.h; the value-zero member is VP8 and
kVideoCodecUnknown is the explicit invalid member. -/
inductive VideoCodecType
  | kVideoCodecVP8
  | kVideoCodecVP9
  | kVideoCodecH264
  | kVideoCodecI420
  | kVideoCodecRED
  | kVideoCodecULPFEC
  | kVideoCodecFlexfec
  | kVideoCodecGeneric
  | kVideoCodecMultiplex
  | kVideoCodecUnknown
  deriving DecidableEq, Repr

/-- The fields of VideoCodec that decoder_database.cc reads or writes:
plType (uint8_t), codecType, width and height. -/
structure VideoCodec where
  plType : Nat
  codecType : VideoCodecType
  width : Nat
  height : Nat
  deriving DecidableEq, Repr

/-- Result of memset(&receive_codec_, 0, sizeof(VideoCodec)): every field
zeroed; the zero codec type enumerator is VP8. -/
def VideoCodec.zero : VideoCodec :=
  { plType := 0, codecType := VideoCodecType.kVideoCodecVP8, width := 0, height := 0 }

/-- An externally owned decoder engine instance, identified by its address. -/
structure VideoDecoder where
  id : Nat
  deriving DecidableEq, Repr

/-- VCMGenericDecoder: wraps a VideoDecoder instance; decoderId is the
identity of the wrapped instance and isExternal records whether it was
externally supplied. -/
structure VCMGenericDecoder where
  decoderId : Nat
  isExternal : Bool
  deriving DecidableEq, Repr

/-- IsSameDecoder compares the wrapped instance against the argument. -/
def VCMGenericDecoder.IsSameDecoder (g : VCMGenericDecoder) (d : VideoDecoder) : Bool :=
  g.decoderId == d.id

/-- VCMDecoderMapItem: owned copy of the registered codec settings plus the
core count and key-frame requirement. -/
structure VCMDecoderMapItem where
  settings : VideoCodec
  number_of_cores : Int
  require_key_frame : Bool
  deriving DecidableEq, Repr

/-- VCMExtDecoderMapItem: payload type plus a borrowed reference to the
externally owned decoder instance. -/
structure VCMExtDecoderMapItem where
  payload_type : Nat
  external_decoder_instance : VideoDecoder
  deriving DecidableEq, Repr

/-- The parts of VCMEncodedFrame that GetDecoder reads: PayloadType() and
the encoded width/height of EncodedImage(). -/
structure VCMEncodedFrame where
  payloadType : Nat
  encodedWidth : Nat
  encodedHeight : Nat
  deriving DecidableEq, Repr

/-- State of VCMDecoderDataBase: the cached configuration snapshot, the
cached decoder engine, and the two payload-type-keyed maps. -/
structure VCMDecoderDataBase where
  receive_codec_ : VideoCodec
  ptr_decoder_ : Option VCMGenericDecoder
  dec_map_ : Nat → Option VCMDecoderMapItem
  dec_external_map_ : Nat → Option VCMExtDecoderMapItem

/-- The default constructor: empty maps, zero receive codec, null decoder. -/
def VCMDecoderDataBase.initial : VCMDecoderDataBase :=
  { receive_codec_ := VideoCodec.zero
    ptr_decoder_ := none
    dec_map_ := fun _ => none
    dec_external_map_ := fun _ => none }

/-- Environment: compile-time configuration flags, factory availability,
the identity a freshly built decoder would get, and the status codes
returned by InitDecode and RegisterDecodeCompleteCallback. -/
structure Env where
  useBuiltinSwCodecs : Bool
  webrtcLinux : Bool
  h264Supported : Bool
  builtinDecoderId : Nat
  initDecodeResult : VideoCodec → Int → Int
  registerCallbackResult : Int

/-- The static CreateDecoder helper, compiled only under
USE_BUILTIN_SW_CODECS: the only live case builds an H264 decoder when not
on Linux and H264 is supported; every other type falls through to null. -/
def CreateDecoder (env : Env) (t : VideoCodecType) : Option VCMGenericDecoder :=
  if ¬ env.webrtcLinux ∧ t = VideoCodecType.kVideoCodecH264 ∧ env.h264Supported then
    some { decoderId := env.builtinDecoderId, isExternal := false }
  else
    none

/-- Observable calls GetDecoder makes on its collaborators, in order. -/
inductive Event
  | initDecode (settings : VideoCodec) (cores : Int)
  | onIncomingPayloadType (plType : Nat)
  | registerDecodeCompleteCallback
  deriving DecidableEq, Repr

/-- DeregisterReceiveCodec: erase the map entry if present; if the erased
payload type is the one recorded in receive_codec_, memset the cached
configuration to zero.  Returns false when the entry is absent. -/
def VCMDecoderDataBase.DeregisterReceiveCodec (s : VCMDecoderDataBase)
    (payload_type : Nat) : Bool × VCMDecoderDataBase :=
  match s.dec_map_ payload_type with
  | none => (false, s)
  | some _ =>
      (true,
        { s with
          dec_map_ := fun k => if k = payload_type then none else s.dec_map_ k
          receive_codec_ :=
            if s.receive_codec_.plType = payload_type then VideoCodec.zero
            else s.receive_codec_ })

/-- RegisterReceiveCodec: reject a negative core count before touching
anything; then deregister any entry for the same payload type; then reject
the unknown codec type; otherwise insert a value copy of the configuration
with the core count and key-frame flag. -/
def VCMDecoderDataBase.RegisterReceiveCodec (s : VCMDecoderDataBase)
    (receive_codec : VideoCodec) (number_of_cores : Int)
    (require_key_frame : Bool) : Bool × VCMDecoderDataBase :=
  if number_of_cores < 0 then
    (false, s)
  else
    let s1 := (s.DeregisterReceiveCodec receive_codec.plType).2
    if receive_codec.codecType = VideoCodecType.kVideoCodecUnknown then
      (false, s1)
    else
      (true,
        { s1 with
          dec_map_ := fun k =>
            if k = receive_codec.plType then
              some { settings := receive_codec
                     number_of_cores := number_of_cores
                     require_key_frame := require_key_frame }
            else s1.dec_map_ k })

/-- The cached-decoder identity test ptr_decoder_ && ptr_decoder_->IsSameDecoder(d). -/
def matchesCachedDecoder (ptr : Option VCMGenericDecoder) (d : VideoDecoder) : Bool :=
  match ptr with
  | some g => g.IsSameDecoder d
  | none => false

/-- DeregisterExternalDecoder: false when no binding exists; otherwise
release the cached decoder when it wraps this binding, cascade into
DeregisterReceiveCodec, and erase the binding. -/
def VCMDecoderDataBase.DeregisterExternalDecoder (s : VCMDecoderDataBase)
    (payload_type : Nat) : Bool × VCMDecoderDataBase :=
  match s.dec_external_map_ payload_type with
  | none => (false, s)
  | some ext =>
      let s1 :=
        if matchesCachedDecoder s.ptr_decoder_ ext.external_decoder_instance then
          { s with ptr_decoder_ := none }
        else s
      let s2 := (s1.DeregisterReceiveCodec payload_type).2
      (true,
        { s2 with
          dec_external_map_ :=
            fun k => if k = payload_type then none else s2.dec_external_map_ k })

/-- RegisterExternalDecoder: deregister any existing binding for the
payload type, then store the new borrowed reference. -/
def VCMDecoderDataBase.RegisterExternalDecoder (s : VCMDecoderDataBase)
    (external_decoder : VideoDecoder) (payload_type : Nat) : VCMDecoderDataBase :=
  let s1 := (s.DeregisterExternalDecoder payload_type).2
  { s1 with
    dec_external_map_ :=
      fun k =>
        if k = payload_type then
          some { payload_type := payload_type
                 external_decoder_instance := external_decoder }
        else s1.dec_external_map_ k }

/-- FindDecoderItem: map lookup. -/
def VCMDecoderDataBase.FindDecoderItem (s : VCMDecoderDataBase)
    (payload_type : Nat) : Option VCMDecoderMapItem :=
  s.dec_map_ payload_type

/-- FindExternalDecoderItem: map lookup. -/
def VCMDecoderDataBase.FindExternalDecoderItem (s : VCMDecoderDataBase)
    (payload_type : Nat) : Option VCMExtDecoderMapItem :=
  s.dec_external_map_ payload_type

/-- Engine resolution inside CreateAndInitDecoder: prefer an external
binding; otherwise build a decoder with the static factory when
USE_BUILTIN_SW_CODECS is defined. -/
def resolveEngine (env : Env) (s : VCMDecoderDataBase) (payload_type : Nat)
    (decoder_item : VCMDecoderMapItem) : Option VCMGenericDecoder :=
  match s.dec_external_map_ payload_type with
  | some ext =>
      some { decoderId := ext.external_decoder_instance.id, isExternal := true }
  | none =>
      if env.useBuiltinSwCodecs then CreateDecoder env decoder_item.settings.codecType
      else none

/-- The in-place width/height patch of the registry entry: performed when
the frame reports both encoded dimensions positive, a no-op otherwise. -/
def patchItem (frame : VCMEncodedFrame) (decoder_item : VCMDecoderMapItem) :
    VCMDecoderMapItem :=
  if frame.encodedWidth > 0 ∧ frame.encodedHeight > 0 then
    { decoder_item with
      settings :=
        { decoder_item.settings with
          width := frame.encodedWidth
          height := frame.encodedHeight } }
  else decoder_item

/-- CreateAndInitDecoder: look up the registry entry, resolve an engine,
patch the entry width and height in place from the frame when both are
positive, call InitDecode, and on success hand back the engine together
with the value to memcpy into the out parameter.  Returns the possibly
patched dec_map_ and the collaborator calls made. -/
def VCMDecoderDataBase.CreateAndInitDecoder (s : VCMDecoderDataBase) (env : Env)
    (frame : VCMEncodedFrame) :
    Option (VCMGenericDecoder × VideoCodec) × (Nat → Option VCMDecoderMapItem) × List Event :=
  let payload_type := frame.payloadType
  match s.dec_map_ payload_type with
  | none => (none, s.dec_map_, [])
  | some decoder_item =>
      match resolveEngine env s payload_type decoder_item with
      | none => (none, s.dec_map_, [])
      | some ptr_decoder =>
          let patched_item := patchItem frame decoder_item
          let dec_map' :=
            fun k => if k = payload_type then some patched_item else s.dec_map_ k
          let ev := [Event.initDecode patched_item.settings patched_item.number_of_cores]
          if env.initDecodeResult patched_item.settings patched_item.number_of_cores < 0 then
            (none, dec_map', ev)
          else
            (some (ptr_decoder, patched_item.settings), dec_map', ev)

/-- The eviction step of GetDecoder: when a decoder is cached, release it
and memset the cached configuration to zero. -/
def VCMDecoderDataBase.evicted (s : VCMDecoderDataBase) : VCMDecoderDataBase :=
  if s.ptr_decoder_.isSome then
    { s with ptr_decoder_ := none, receive_codec_ := VideoCodec.zero }
  else s

/-- GetDecoder: cache hit when the frame payload type equals the cached
configuration payload type or the wildcard 0; otherwise evict any cached
decoder (resetting the cached configuration), rebuild through
CreateAndInitDecoder, notify the receive callback of the new payload
type, and register the decode-complete callback, tearing everything down
if that registration fails. -/
def VCMDecoderDataBase.GetDecoder (s : VCMDecoderDataBase) (env : Env)
    (frame : VCMEncodedFrame) :
    Option VCMGenericDecoder × VCMDecoderDataBase × List Event :=
  let payload_type := frame.payloadType
  if payload_type = s.receive_codec_.plType ∨ payload_type = 0 then
    (s.ptr_decoder_, s, [])
  else
    let s1 := s.evicted
    match s1.CreateAndInitDecoder env frame with
    | (none, decMap, evs) =>
        (none, { s1 with dec_map_ := decMap }, evs)
    | (some (dec, newCodec), decMap, evs) =>
        let s2 :=
          { s1 with
            dec_map_ := decMap
            receive_codec_ := newCodec
            ptr_decoder_ := some dec }
        let evs2 :=
          evs ++ [Event.onIncomingPayloadType s2.receive_codec_.plType,
                  Event.registerDecodeCompleteCallback]
        if env.registerCallbackResult < 0 then
          (none, { s2 with ptr_decoder_ := none, receive_codec_ := VideoCodec.zero }, evs2)
        else
          (some dec, s2, evs2)

/-- GetCurrentDecoder: pure accessor. -/
def VCMDecoderDataBase.GetCurrentDecoder (s : VCMDecoderDataBase) :
    Option VCMGenericDecoder :=
  s.ptr_decoder_

/-- States reachable from the default constructor through the public
operations of the database. -/
inductive Reachable : VCMDecoderDataBase → Prop
  | initial : Reachable VCMDecoderDataBase.initial
  | registerReceiveCodec (s : VCMDecoderDataBase) (c : VideoCodec) (n : Int) (k : Bool) :
      Reachable s → Reachable (s.RegisterReceiveCodec c n k).2
  | deregisterReceiveCodec (s : VCMDecoderDataBase) (p : Nat) :
      Reachable s → Reachable (s.DeregisterReceiveCodec p).2
  | registerExternalDecoder (s : VCMDecoderDataBase) (d : VideoDecoder) (p : Nat) :
      Reachable s → Reachable (s.RegisterExternalDecoder d p)
  | deregisterExternalDecoder (s : VCMDecoderDataBase) (p : Nat) :
      Reachable s → Reachable (s.DeregisterExternalDecoder p).2
  | getDecoder (s : VCMDecoderDataBase) (env : Env) (frame : VCMEncodedFrame) :
      Reachable s → Reachable (s.GetDecoder env frame).2.1

/-! Concrete states used by witnesses and counterexamples. -/

/-- Environment with an external decoder available and succeeding calls. -/
def exEnv : Env :=
  { useBuiltinSwCodecs := false, webrtcLinux := false, h264Supported := false,
    builtinDecoderId := 0, initDecodeResult := fun _ _ => 0, registerCallbackResult := 0 }

/-- A valid H264 receive codec configuration on payload type 96. -/
def exCfg96 : VideoCodec :=
  { plType := 96, codecType := VideoCodecType.kVideoCodecH264, width := 320, height := 240 }

/-- A second, different configuration on payload type 96. -/
def exCfg96b : VideoCodec :=
  { plType := 96, codecType := VideoCodecType.kVideoCodecGeneric,
    width := 1280, height := 720 }

/-- A configuration on payload type 96 with the unknown codec type. -/
def exCfgUnk : VideoCodec :=
  { plType := 96, codecType := VideoCodecType.kVideoCodecUnknown, width := 0, height := 0 }

/-- A valid configuration on the wildcard payload type 0. -/
def exCfg0 : VideoCodec :=
  { plType := 0, codecType := VideoCodecType.kVideoCodecH264, width := 0, height := 0 }

/-- A frame on payload type 96 with parsed resolution. -/
def exFrame96 : VCMEncodedFrame :=
  { payloadType := 96, encodedWidth := 640, encodedHeight := 480 }

/-- A frame on the wildcard payload type 0. -/
def exFrame0 : VCMEncodedFrame :=
  { payloadType := 0, encodedWidth := 0, encodedHeight := 0 }

/-- A frame on the unregistered payload type 97. -/
def exFrame97 : VCMEncodedFrame :=
  { payloadType := 97, encodedWidth := 0, encodedHeight := 0 }

/-- External decoder instance 5 bound to payload type 96. -/
def exS1 : VCMDecoderDataBase :=
  VCMDecoderDataBase.initial.RegisterExternalDecoder ⟨5⟩ 96

/-- exS1 with the receive codec for payload type 96 registered. -/
def exS2 : VCMDecoderDataBase := (exS1.RegisterReceiveCodec exCfg96 1 false).2

/-- exS2 after a successful GetDecoder on payload type 96: decoder 5 cached. -/
def exS3 : VCMDecoderDataBase := (exS2.GetDecoder exEnv exFrame96).2.1

/-- exS3 after deregistering payload 96: cache key cleared, engine still cached. -/
def exS4 : VCMDecoderDataBase := (exS3.DeregisterReceiveCodec 96).2

/-- exS3 with the same external instance 5 also bound to payload type 97. -/
def exT4 : VCMDecoderDataBase := exS3.RegisterExternalDecoder ⟨5⟩ 97

/-- exT4 after deregistering binding 97: engine evicted, cached config kept. -/
def exT5 : VCMDecoderDataBase := (exT4.DeregisterExternalDecoder 97).2

/-- exS3 with external instance 7 bound to the wildcard payload type 0. -/
def exU4 : VCMDecoderDataBase := exS3.RegisterExternalDecoder ⟨7⟩ 0

/-- exU4 with a receive codec registered on payload type 0. -/
def exU5 : VCMDecoderDataBase := (exU4.RegisterReceiveCodec exCfg0 1 false).2

/-- exS4 with external instance 7 bound to the wildcard payload type 0. -/
def exV5 : VCMDecoderDataBase := exS4.RegisterExternalDecoder ⟨7⟩ 0

/-! Invariant of reachable states. -/

/-- Every registry entry is stored under the payload type recorded in its
settings, carries a non-negative core count, and never the unknown codec
type. -/
def RegistryOk (m : Nat → Option VCMDecoderMapItem) : Prop :=
  ∀ p item, m p = some item →
    item.settings.plType = p ∧ 0 ≤ item.number_of_cores ∧
    item.settings.codecType ≠ VideoCodecType.kVideoCodecUnknown

/-- When the cached configuration records a non-wildcard payload type, the
registry still holds an entry for it. -/
def CacheOk (s : VCMDecoderDataBase) : Prop :=
  s.receive_codec_.plType ≠ 0 → (s.dec_map_ s.receive_codec_.plType).isSome = true

/-- Conjunction of the state invariants maintained by the operations. -/
def GoodState (s : VCMDecoderDataBase) : Prop :=
  CacheOk s ∧ RegistryOk s.dec_map_

theorem goodState_initial : GoodState VCMDecoderDataBase.initial := by
  constructor
  · intro h
    simp [VCMDecoderDataBase.initial, VideoCodec.zero] at h
  · intro p item h
    simp [VCMDecoderDataBase.initial] at h

theorem deregisterReceiveCodec_good (s : VCMDecoderDataBase) (p : Nat)
    (hg : GoodState s) : GoodState (s.DeregisterReceiveCodec p).2 := by
  obtain ⟨hc, hr⟩ := hg
  unfold VCMDecoderDataBase.DeregisterReceiveCodec
  split
  · exact ⟨hc, hr⟩
  · constructor
    · intro hne
      simp only at hne ⊢
      split at hne
      · simp [VideoCodec.zero] at hne
      · rename_i hplne
        simp only [if_neg hplne]
        exact hc hne
    · intro q item hq
      simp only at hq
      split at hq
      · exact absurd hq (by simp)
      · exact hr q item hq

theorem registerReceiveCodec_good (s : VCMDecoderDataBase) (c : VideoCodec)
    (n : Int) (k : Bool) (hg : GoodState s) :
    GoodState (s.RegisterReceiveCodec c n k).2 := by
  unfold VCMDecoderDataBase.RegisterReceiveCodec
  split
  · exact hg
  · rename_i hn
    have hg1 := deregisterReceiveCodec_good s c.plType hg
    split
    · exact hg1
    · rename_i hunk
      obtain ⟨hc1, hr1⟩ := hg1
      constructor
      · intro hne
        simp only at hne ⊢
        by_cases hq :
            ((s.DeregisterReceiveCodec c.plType).2.receive_codec_).plType = c.plType
        · rw [hq, if_pos rfl]
          simp
        · rw [if_neg hq]
          exact hc1 hne
      · intro q item hq
        simp only at hq
        split at hq
        · rename_i hqp
          obtain rfl : item =
              { settings := c, number_of_cores := n, require_key_frame := k } := by
            exact (Option.some_injective _ hq).symm
          refine ⟨hqp.symm, ?_, hunk⟩
          exact Int.not_lt.mp hn
        · exact hr1 q item hq

theorem goodState_congr (s s' : VCMDecoderDataBase)
    (h1 : s'.receive_codec_ = s.receive_codec_) (h2 : s'.dec_map_ = s.dec_map_)
    (hg : GoodState s) : GoodState s' := by
  obtain ⟨hc, hr⟩ := hg
  constructor
  · unfold CacheOk
    rw [h1, h2]
    exact hc
  · rw [h2]
    exact hr

theorem deregisterExternalDecoder_good (s : VCMDecoderDataBase) (p : Nat)
    (hg : GoodState s) : GoodState (s.DeregisterExternalDecoder p).2 := by
  unfold VCMDecoderDataBase.DeregisterExternalDecoder
  split
  · exact hg
  · apply goodState_congr _ _ rfl rfl
    apply deregisterReceiveCodec_good
    split
    · exact goodState_congr _ _ rfl rfl hg
    · exact hg

theorem registerExternalDecoder_good (s : VCMDecoderDataBase) (d : VideoDecoder)
    (p : Nat) (hg : GoodState s) : GoodState (s.RegisterExternalDecoder d p) := by
  unfold VCMDecoderDataBase.RegisterExternalDecoder
  apply goodState_congr _ _ rfl rfl
  exact deregisterExternalDecoder_good s p hg


theorem patchItem_plType (frame : VCMEncodedFrame) (it : VCMDecoderMapItem) :
    (patchItem frame it).settings.plType = it.settings.plType := by
  unfold patchItem
  split <;> rfl

theorem patchItem_codecType (frame : VCMEncodedFrame) (it : VCMDecoderMapItem) :
    (patchItem frame it).settings.codecType = it.settings.codecType := by
  unfold patchItem
  split <;> rfl

theorem patchItem_cores (frame : VCMEncodedFrame) (it : VCMDecoderMapItem) :
    (patchItem frame it).number_of_cores = it.number_of_cores := by
  unfold patchItem
  split <;> rfl

theorem evicted_dec_map (s : VCMDecoderDataBase) : s.evicted.dec_map_ = s.dec_map_ := by
  unfold VCMDecoderDataBase.evicted
  split <;> rfl

theorem evicted_ext_map (s : VCMDecoderDataBase) :
    s.evicted.dec_external_map_ = s.dec_external_map_ := by
  unfold VCMDecoderDataBase.evicted
  split <;> rfl

theorem evicted_good (s : VCMDecoderDataBase) (hg : GoodState s) :
    GoodState s.evicted := by
  unfold VCMDecoderDataBase.evicted
  split
  · constructor
    · intro h
      simp [VideoCodec.zero] at h
    · exact hg.2
  · exact hg

/-- Case analysis on CreateAndInitDecoder: either the returned map is the
untouched dec_map_, or the registry entry for the frame payload type was
found and the map differs from dec_map_ exactly by the in-place patch of
that entry. -/
theorem createAndInitDecoder_map_cases (s : VCMDecoderDataBase) (env : Env)
    (frame : VCMEncodedFrame) :
    (s.CreateAndInitDecoder env frame).2.1 = s.dec_map_ ∨
    (∃ item, s.dec_map_ frame.payloadType = some item ∧
      (s.CreateAndInitDecoder env frame).2.1 =
        fun k => if k = frame.payloadType then some (patchItem frame item)
                 else s.dec_map_ k) := by
  rcases hm : s.dec_map_ frame.payloadType with _ | item
  · left
    simp [VCMDecoderDataBase.CreateAndInitDecoder, hm]
  · rcases hres : resolveEngine env s frame.payloadType item with _ | ptr
    · left
      simp [VCMDecoderDataBase.CreateAndInitDecoder, hm, hres]
    · right
      refine ⟨item, rfl, ?_⟩
      simp only [VCMDecoderDataBase.CreateAndInitDecoder, hm, hres]
      split <;> rfl

/-- On success, CreateAndInitDecoder hands back the patched settings of
the registry entry for the frame payload type, and the returned map holds
the patched entry under that key. -/
theorem createAndInitDecoder_some (s : VCMDecoderDataBase) (env : Env)
    (frame : VCMEncodedFrame) (dec : VCMGenericDecoder) (nc : VideoCodec)
    (h : (s.CreateAndInitDecoder env frame).1 = some (dec, nc)) :
    ∃ item, s.dec_map_ frame.payloadType = some item ∧
      nc = (patchItem frame item).settings ∧
      (s.CreateAndInitDecoder env frame).2.1 =
        fun k => if k = frame.payloadType then some (patchItem frame item)
                 else s.dec_map_ k := by
  rcases hm : s.dec_map_ frame.payloadType with _ | item
  · simp [VCMDecoderDataBase.CreateAndInitDecoder, hm] at h
  · rcases hres : resolveEngine env s frame.payloadType item with _ | ptr
    · simp [VCMDecoderDataBase.CreateAndInitDecoder, hm, hres] at h
    · refine ⟨item, rfl, ?_, ?_⟩
      · simp only [VCMDecoderDataBase.CreateAndInitDecoder, hm, hres] at h
        split at h
        · simp at h
        · simp only [Option.some_inj, Prod.mk.injEq] at h
          exact h.2.symm
      · simp only [VCMDecoderDataBase.CreateAndInitDecoder, hm, hres]
        split <;> rfl

/-- When the registry has no entry for the frame payload type,
CreateAndInitDecoder fails and leaves the map untouched. -/
theorem createAndInitDecoder_lookup_miss (s : VCMDecoderDataBase) (env : Env)
    (frame : VCMEncodedFrame) (hm : s.dec_map_ frame.payloadType = none) :
    s.CreateAndInitDecoder env frame = (none, s.dec_map_, []) := by
  simp [VCMDecoderDataBase.CreateAndInitDecoder, hm]

theorem createAndInitDecoder_registryOk (s : VCMDecoderDataBase) (env : Env)
    (frame : VCMEncodedFrame) (hr : RegistryOk s.dec_map_) :
    RegistryOk (s.CreateAndInitDecoder env frame).2.1 := by
  rcases createAndInitDecoder_map_cases s env frame with h | ⟨item, hm, h⟩
  · rw [h]
    exact hr
  · rw [h]
    intro q it hq
    by_cases hqp : q = frame.payloadType
    · subst hqp
      simp at hq
      subst hq
      obtain ⟨h1, h2, h3⟩ := hr frame.payloadType item hm
      refine ⟨?_, ?_, ?_⟩
      · rw [patchItem_plType, h1]
      · rw [patchItem_cores]
        exact h2
      · rw [patchItem_codecType]
        exact h3
    · simp only [if_neg hqp] at hq
      exact hr q it hq

theorem createAndInitDecoder_isSome (s : VCMDecoderDataBase) (env : Env)
    (frame : VCMEncodedFrame) (p : Nat) (hp : (s.dec_map_ p).isSome = true) :
    ((s.CreateAndInitDecoder env frame).2.1 p).isSome = true := by
  rcases createAndInitDecoder_map_cases s env frame with h | ⟨item, hm, h⟩
  · rw [h]
    exact hp
  · rw [h]
    by_cases hqp : p = frame.payloadType
    · simp [hqp]
    · simpa [hqp] using hp

theorem getDecoder_hit_eq (s : VCMDecoderDataBase) (env : Env) (frame : VCMEncodedFrame)
    (h : frame.payloadType = s.receive_codec_.plType ∨ frame.payloadType = 0) :
    s.GetDecoder env frame = (s.ptr_decoder_, s, []) := by
  simp only [VCMDecoderDataBase.GetDecoder]
  rw [if_pos h]

theorem getDecoder_miss_fail (s : VCMDecoderDataBase) (env : Env)
    (frame : VCMEncodedFrame)
    (h : ¬(frame.payloadType = s.receive_codec_.plType ∨ frame.payloadType = 0))
    (m : Nat → Option VCMDecoderMapItem) (evs : List Event)
    (hcr : s.evicted.CreateAndInitDecoder env frame = (none, m, evs)) :
    s.GetDecoder env frame = (none, { s.evicted with dec_map_ := m }, evs) := by
  simp only [VCMDecoderDataBase.GetDecoder, hcr]
  rw [if_neg h]

theorem getDecoder_miss_some (s : VCMDecoderDataBase) (env : Env)
    (frame : VCMEncodedFrame)
    (h : ¬(frame.payloadType = s.receive_codec_.plType ∨ frame.payloadType = 0))
    (dec : VCMGenericDecoder) (nc : VideoCodec)
    (m : Nat → Option VCMDecoderMapItem) (evs : List Event)
    (hcr : s.evicted.CreateAndInitDecoder env frame = (some (dec, nc), m, evs)) :
    s.GetDecoder env frame =
      (if env.registerCallbackResult < 0 then
        (none,
          { receive_codec_ := VideoCodec.zero
            ptr_decoder_ := none
            dec_map_ := m
            dec_external_map_ := s.evicted.dec_external_map_ },
          evs ++ [Event.onIncomingPayloadType nc.plType,
                  Event.registerDecodeCompleteCallback])
      else
        (some dec,
          { receive_codec_ := nc
            ptr_decoder_ := some dec
            dec_map_ := m
            dec_external_map_ := s.evicted.dec_external_map_ },
          evs ++ [Event.onIncomingPayloadType nc.plType,
                  Event.registerDecodeCompleteCallback])) := by
  simp only [VCMDecoderDataBase.GetDecoder, hcr]
  rw [if_neg h]

theorem getDecoder_good (s : VCMDecoderDataBase) (env : Env)
    (frame : VCMEncodedFrame) (hg : GoodState s) :
    GoodState (s.GetDecoder env frame).2.1 := by
  by_cases h : frame.payloadType = s.receive_codec_.plType ∨ frame.payloadType = 0
  · rw [getDecoder_hit_eq s env frame h]
    exact hg
  · have hg1 := evicted_good s hg
    rcases hcr : s.evicted.CreateAndInitDecoder env frame with ⟨r, m, evs⟩
    cases r with
    | none =>
        rw [getDecoder_miss_fail s env frame h m evs hcr]
        constructor
        · intro hne
          have h1 := hg1.1 hne
          have h2 := createAndInitDecoder_isSome s.evicted env frame _ h1
          rw [hcr] at h2
          exact h2
        · have h3 := createAndInitDecoder_registryOk s.evicted env frame hg1.2
          rw [hcr] at h3
          exact h3
    | some pr =>
        obtain ⟨dec, nc⟩ := pr
        obtain ⟨item, hitem, hnc, hmap⟩ :=
          createAndInitDecoder_some s.evicted env frame dec nc (by rw [hcr])
        rw [hcr] at hmap
        have hro : RegistryOk m := by
          have h3 := createAndInitDecoder_registryOk s.evicted env frame hg1.2
          rw [hcr] at h3
          exact h3
        rw [getDecoder_miss_some s env frame h dec nc m evs hcr]
        split
        · constructor
          · intro hne
            simp [VideoCodec.zero] at hne
          · exact hro
        · constructor
          · intro hne
            have hpl : nc.plType = frame.payloadType := by
              rw [hnc, patchItem_plType]
              exact (hg1.2 frame.payloadType item hitem).1
            have hmap2 : m = fun k =>
                if k = frame.payloadType then some (patchItem frame item)
                else s.evicted.dec_map_ k := hmap
            show (m nc.plType).isSome = true
            rw [hmap2]
            simp [hpl]
          · exact hro

theorem reachable_good (s : VCMDecoderDataBase) (h : Reachable s) : GoodState s := by
  induction h with
  | initial => exact goodState_initial
  | registerReceiveCodec s c n k _ ih => exact registerReceiveCodec_good s c n k ih
  | deregisterReceiveCodec s p _ ih => exact deregisterReceiveCodec_good s p ih
  | registerExternalDecoder s d p _ ih => exact registerExternalDecoder_good s d p ih
  | deregisterExternalDecoder s p _ ih => exact deregisterExternalDecoder_good s p ih
  | getDecoder s env frame _ ih => exact getDecoder_good s env frame ih

theorem deregisterReceiveCodec_absent (s : VCMDecoderDataBase) (p : Nat)
    (h : s.dec_map_ p = none) : s.DeregisterReceiveCodec p = (false, s) := by
  simp [VCMDecoderDataBase.DeregisterReceiveCodec, h]

theorem deregisterReceiveCodec_found (s : VCMDecoderDataBase) (p : Nat)
    (item : VCMDecoderMapItem) (h : s.dec_map_ p = some item) :
    s.DeregisterReceiveCodec p =
      (true,
        { s with
          dec_map_ := fun k => if k = p then none else s.dec_map_ k
          receive_codec_ :=
            if s.receive_codec_.plType = p then VideoCodec.zero
            else s.receive_codec_ }) := by
  simp [VCMDecoderDataBase.DeregisterReceiveCodec, h]

theorem deregisterReceiveCodec_ptr (s : VCMDecoderDataBase) (p : Nat) :
    (s.DeregisterReceiveCodec p).2.ptr_decoder_ = s.ptr_decoder_ := by
  unfold VCMDecoderDataBase.DeregisterReceiveCodec
  split <;> rfl

theorem deregisterReceiveCodec_ext (s : VCMDecoderDataBase) (p : Nat) :
    (s.DeregisterReceiveCodec p).2.dec_external_map_ = s.dec_external_map_ := by
  unfold VCMDecoderDataBase.DeregisterReceiveCodec
  split <;> rfl

theorem deregisterReceiveCodec_map_self (s : VCMDecoderDataBase) (p : Nat) :
    (s.DeregisterReceiveCodec p).2.dec_map_ p = none := by
  rcases h : s.dec_map_ p with _ | item
  · rw [deregisterReceiveCodec_absent s p h]
    exact h
  · rw [deregisterReceiveCodec_found s p item h]
    simp

theorem deregisterReceiveCodec_map_other (s : VCMDecoderDataBase) (p q : Nat)
    (hq : q ≠ p) : (s.DeregisterReceiveCodec p).2.dec_map_ q = s.dec_map_ q := by
  rcases h : s.dec_map_ p with _ | item
  · rw [deregisterReceiveCodec_absent s p h]
  · rw [deregisterReceiveCodec_found s p item h]
    simp [hq]

theorem deregisterReceiveCodec_rc_ne (s : VCMDecoderDataBase) (p : Nat)
    (hp : p ≠ 0) (hc : CacheOk s) :
    (s.DeregisterReceiveCodec p).2.receive_codec_.plType ≠ p := by
  rcases h : s.dec_map_ p with _ | item
  · rw [deregisterReceiveCodec_absent s p h]
    intro he
    have := hc (by rw [he]; exact hp)
    rw [he, h] at this
    simp at this
  · rw [deregisterReceiveCodec_found s p item h]
    by_cases hrc : s.receive_codec_.plType = p
    · simp only [if_pos hrc]
      simpa [VideoCodec.zero] using (Ne.symm hp)
    · simp only [if_neg hrc]
      exact hrc

theorem evicted_ptr (s : VCMDecoderDataBase) : s.evicted.ptr_decoder_ = none := by
  unfold VCMDecoderDataBase.evicted
  split
  · rfl
  · rename_i h
    simpa using h

theorem evicted_rc_of_cached (s : VCMDecoderDataBase)
    (h : s.ptr_decoder_.isSome = true) :
    s.evicted.receive_codec_ = VideoCodec.zero := by
  unfold VCMDecoderDataBase.evicted
  rw [if_pos h]

theorem getDecoder_null_of_no_entry (s : VCMDecoderDataBase) (env : Env)
    (frame : VCMEncodedFrame) (h0 : frame.payloadType ≠ 0)
    (h1 : frame.payloadType ≠ s.receive_codec_.plType)
    (hm : s.dec_map_ frame.payloadType = none) :
    (s.GetDecoder env frame).1 = none := by
  have hmiss : ¬(frame.payloadType = s.receive_codec_.plType ∨ frame.payloadType = 0) := by
    intro hor
    rcases hor with ha | hb
    · exact h1 ha
    · exact h0 hb
  have hm1 : s.evicted.dec_map_ frame.payloadType = none := by
    rw [evicted_dec_map]
    exact hm
  have hcr := createAndInitDecoder_lookup_miss s.evicted env frame hm1
  rw [getDecoder_miss_fail s env frame hmiss _ _ hcr]

theorem registerReceiveCodec_success (s : VCMDecoderDataBase) (c : VideoCodec)
    (n : Int) (k : Bool) (h0 : 0 ≤ n)
    (h1 : c.codecType ≠ VideoCodecType.kVideoCodecUnknown) :
    s.RegisterReceiveCodec c n k =
      (true,
        { (s.DeregisterReceiveCodec c.plType).2 with
          dec_map_ := fun q =>
            if q = c.plType then
              some { settings := c, number_of_cores := n, require_key_frame := k }
            else (s.DeregisterReceiveCodec c.plType).2.dec_map_ q }) := by
  unfold VCMDecoderDataBase.RegisterReceiveCodec
  rw [if_neg (Int.not_lt.mpr h0)]
  simp only [if_neg h1]

theorem resolveEngine_congr (s s' : VCMDecoderDataBase) (env : Env) (p : Nat)
    (item : VCMDecoderMapItem)
    (h : s'.dec_external_map_ = s.dec_external_map_) :
    resolveEngine env s' p item = resolveEngine env s p item := by
  unfold resolveEngine
  rw [h]

theorem createAndInitDecoder_resolved (s : VCMDecoderDataBase) (env : Env)
    (frame : VCMEncodedFrame) (item : VCMDecoderMapItem) (dec : VCMGenericDecoder)
    (hitem : s.dec_map_ frame.payloadType = some item)
    (hres : resolveEngine env s frame.payloadType item = some dec) :
    s.CreateAndInitDecoder env frame =
      (if env.initDecodeResult (patchItem frame item).settings
            (patchItem frame item).number_of_cores < 0 then
        (none,
          fun k => if k = frame.payloadType then some (patchItem frame item)
                   else s.dec_map_ k,
          [Event.initDecode (patchItem frame item).settings
            (patchItem frame item).number_of_cores])
      else
        (some (dec, (patchItem frame item).settings),
          fun k => if k = frame.payloadType then some (patchItem frame item)
                   else s.dec_map_ k,
          [Event.initDecode (patchItem frame item).settings
            (patchItem frame item).number_of_cores])) := by
  simp only [VCMDecoderDataBase.CreateAndInitDecoder, hitem, hres]

theorem deregisterExternalDecoder_absent (s : VCMDecoderDataBase) (p : Nat)
    (h : s.dec_external_map_ p = none) :
    s.DeregisterExternalDecoder p = (false, s) := by
  simp [VCMDecoderDataBase.DeregisterExternalDecoder, h]

theorem deregisterExternalDecoder_found (s : VCMDecoderDataBase) (p : Nat)
    (ext : VCMExtDecoderMapItem) (h : s.dec_external_map_ p = some ext) :
    s.DeregisterExternalDecoder p =
      (true,
        { ((if matchesCachedDecoder s.ptr_decoder_ ext.external_decoder_instance then
              { s with ptr_decoder_ := none }
            else s).DeregisterReceiveCodec p).2 with
          dec_external_map_ := fun k =>
            if k = p then none
            else ((if matchesCachedDecoder s.ptr_decoder_
                      ext.external_decoder_instance then
                    { s with ptr_decoder_ := none }
                  else s).DeregisterReceiveCodec p).2.dec_external_map_ k }) := by
  simp only [VCMDecoderDataBase.DeregisterExternalDecoder, h]

/-! Claim theorems. -/

/-- C1 (amended): RegisterReceiveCodec with a negative core count returns
false with no mutation at all; with the unknown codec type and a
non-negative core count it also returns false and inserts nothing, but it
first removes any existing registry entry for the payload type of the
given config (the exact state change of DeregisterReceiveCodec), so the
registry entry for that payload type does not survive the rejected call. -/
theorem registerReceiveCodec_invalid_inputs (s : VCMDecoderDataBase)
    (c : VideoCodec) (n : Int) (k : Bool) :
    (n < 0 → s.RegisterReceiveCodec c n k = (false, s)) ∧
    (0 ≤ n → c.codecType = VideoCodecType.kVideoCodecUnknown →
      s.RegisterReceiveCodec c n k = (false, (s.DeregisterReceiveCodec c.plType).2) ∧
      (s.RegisterReceiveCodec c n k).2.dec_map_ c.plType = none) := by
  constructor
  · intro h
    unfold VCMDecoderDataBase.RegisterReceiveCodec
    rw [if_pos h]
  · intro h0 h1
    have he : s.RegisterReceiveCodec c n k =
        (false, (s.DeregisterReceiveCodec c.plType).2) := by
      unfold VCMDecoderDataBase.RegisterReceiveCodec
      rw [if_neg (Int.not_lt.mpr h0)]
      simp only [if_pos h1]
    refine ⟨he, ?_⟩
    rw [he]
    exact deregisterReceiveCodec_map_self s c.plType

/-- Witness for C1 at the initial state with a negative core count. -/
theorem registerReceiveCodec_invalid_inputs_witness :
    VCMDecoderDataBase.initial.RegisterReceiveCodec exCfg96 (-1) false =
      (false, VCMDecoderDataBase.initial) :=
  (registerReceiveCodec_invalid_inputs VCMDecoderDataBase.initial exCfg96
    (-1) false).1 (by decide)

/-- C1 counterexample: with an entry registered for payload type 96, a
RegisterReceiveCodec call carrying the unknown codec type on the same
payload type returns false yet removes the existing entry, so the registry
does not stay unchanged as the claim requires. -/
theorem registerReceiveCodec_unknown_mutates_cex :
    exS2.dec_map_ 96 =
      some { settings := exCfg96, number_of_cores := 1, require_key_frame := false } ∧
    (exS2.RegisterReceiveCodec exCfgUnk 1 false).1 = false ∧
    (exS2.RegisterReceiveCodec exCfgUnk 1 false).2.dec_map_ 96 = none := by
  exact ⟨by decide, by decide, by decide⟩

/-- C2 (amended): when a decoder is cached, the cached config records
payload type p, and the registry still holds an entry for p, then
DeregisterReceiveCodec(p) returns true, removes the entry, zeroes the
cached config (payload type reset to the sentinel 0), leaves the live
engine cached, and a subsequent GetDecoder with wildcard payload type 0
returns the stale engine handle.  The registry-entry hypothesis is needed:
without it the call returns false (see the counterexample). -/
theorem deregisterReceiveCodec_active_entry (s : VCMDecoderDataBase) (p : Nat)
    (d : VCMGenericDecoder) (item : VCMDecoderMapItem) (env : Env)
    (frame : VCMEncodedFrame) (h1 : s.ptr_decoder_ = some d)
    (h2 : s.receive_codec_.plType = p) (h3 : s.dec_map_ p = some item)
    (h4 : frame.payloadType = 0) :
    (s.DeregisterReceiveCodec p).1 = true ∧
    (s.DeregisterReceiveCodec p).2.dec_map_ p = none ∧
    (s.DeregisterReceiveCodec p).2.receive_codec_ = VideoCodec.zero ∧
    (s.DeregisterReceiveCodec p).2.ptr_decoder_ = some d ∧
    ((s.DeregisterReceiveCodec p).2.GetDecoder env frame).1 = some d := by
  have he := deregisterReceiveCodec_found s p item h3
  refine ⟨by rw [he], deregisterReceiveCodec_map_self s p, ?_, ?_, ?_⟩
  · rw [he]
    simp [h2]
  · rw [deregisterReceiveCodec_ptr]
    exact h1
  · rw [getDecoder_hit_eq _ env frame (Or.inr h4)]
    rw [deregisterReceiveCodec_ptr]
    exact h1

/-- Witness for C2: deregistering payload 96 while decoder 5 is cached for
it keeps the engine cached and a wildcard GetDecoder still returns it. -/
theorem deregisterReceiveCodec_active_entry_witness :
    ((exS3.DeregisterReceiveCodec 96).2.GetDecoder exEnv exFrame0).1 =
      some { decoderId := 5, isExternal := true } :=
  (deregisterReceiveCodec_active_entry exS3 96
    { decoderId := 5, isExternal := true }
    { settings := { plType := 96, codecType := VideoCodecType.kVideoCodecH264,
                    width := 640, height := 480 },
      number_of_cores := 1, require_key_frame := false }
    exEnv exFrame0 (by decide) (by decide) (by decide) rfl).2.2.2.2

/-- C2 counterexample: in the reachable state exS4 a decoder is cached and
the cached config records payload type 0, yet DeregisterReceiveCodec(0)
returns false, so the claim as stated (return true for every such state)
fails at p = 0. -/
theorem deregisterReceiveCodec_wildcard_cex :
    exS4.ptr_decoder_ = some { decoderId := 5, isExternal := true } ∧
    exS4.receive_codec_.plType = 0 ∧
    (exS4.DeregisterReceiveCodec 0).1 = false := by
  exact ⟨by decide, by decide, by decide⟩

/-- C3: for every state and every frame whose payload type equals the
cached config payload type or the wildcard sentinel 0, GetDecoder returns
the cached engine handle and the unchanged state with no collaborator
calls, hence the identical handle on a repeated call and no eviction or
reinitialization. -/
theorem getDecoder_cache_hit (s : VCMDecoderDataBase) (env : Env)
    (frame : VCMEncodedFrame)
    (h : frame.payloadType = s.receive_codec_.plType ∨ frame.payloadType = 0) :
    s.GetDecoder env frame = (s.ptr_decoder_, s, []) ∧
    ((s.GetDecoder env frame).2.1.GetDecoder env frame).1 = s.ptr_decoder_ := by
  have h1 := getDecoder_hit_eq s env frame h
  refine ⟨h1, ?_⟩
  rw [h1]
  show (s.GetDecoder env frame).1 = s.ptr_decoder_
  rw [h1]

/-- Witness for C3 at the initial state and a wildcard frame. -/
theorem getDecoder_cache_hit_witness :
    VCMDecoderDataBase.initial.GetDecoder exEnv exFrame0 =
      (VCMDecoderDataBase.initial.ptr_decoder_, VCMDecoderDataBase.initial, []) :=
  (getDecoder_cache_hit VCMDecoderDataBase.initial exEnv exFrame0 (Or.inr rfl)).1

/-- C6: a second RegisterReceiveCodec on the same payload type succeeds,
replaces the stored entry with a value copy of the new config, core count
and key-frame flag, leaves other keys untouched, and the previous config
is no longer resolvable by payload type. -/
theorem registerReceiveCodec_replaces (s : VCMDecoderDataBase)
    (c1 c2 : VideoCodec) (n1 n2 : Int) (k1 k2 : Bool) (h1 : 0 ≤ n1)
    (h2 : c1.codecType ≠ VideoCodecType.kVideoCodecUnknown) (h3 : 0 ≤ n2)
    (h4 : c2.codecType ≠ VideoCodecType.kVideoCodecUnknown)
    (h5 : c2.plType = c1.plType) :
    (s.RegisterReceiveCodec c1 n1 k1).2.dec_map_ c1.plType =
      some { settings := c1, number_of_cores := n1, require_key_frame := k1 } ∧
    ((s.RegisterReceiveCodec c1 n1 k1).2.RegisterReceiveCodec c2 n2 k2).1 = true ∧
    ((s.RegisterReceiveCodec c1 n1 k1).2.RegisterReceiveCodec c2 n2
        k2).2.FindDecoderItem c1.plType =
      some { settings := c2, number_of_cores := n2, require_key_frame := k2 } ∧
    (∀ q, q ≠ c1.plType →
      ((s.RegisterReceiveCodec c1 n1 k1).2.RegisterReceiveCodec c2 n2
          k2).2.dec_map_ q =
        (s.RegisterReceiveCodec c1 n1 k1).2.dec_map_ q) := by
  have e1 := registerReceiveCodec_success s c1 n1 k1 h1 h2
  have e2 := registerReceiveCodec_success (s.RegisterReceiveCodec c1 n1 k1).2
    c2 n2 k2 h3 h4
  refine ⟨?_, ?_, ?_, ?_⟩
  · rw [e1]
    simp
  · rw [e2]
  · rw [e2]
    unfold VCMDecoderDataBase.FindDecoderItem
    simp [h5]
  · intro q hq
    have hq2 : q ≠ c2.plType := by
      rw [h5]
      exact hq
    rw [e2]
    show (if q = c2.plType then _ else _) = _
    rw [if_neg hq2]
    exact deregisterReceiveCodec_map_other _ c2.plType q hq2

/-- Witness for C6: registering payload 96 twice leaves the second config
resolvable and the first gone. -/
theorem registerReceiveCodec_replaces_witness :
    ((VCMDecoderDataBase.initial.RegisterReceiveCodec exCfg96 1
        false).2.RegisterReceiveCodec exCfg96b 2 true).2.FindDecoderItem 96 =
      some { settings := exCfg96b, number_of_cores := 2, require_key_frame := true } :=
  (registerReceiveCodec_replaces VCMDecoderDataBase.initial exCfg96 exCfg96b
    1 2 false true (by decide) (by decide) (by decide) (by decide) rfl).2.2.1

/-- C9: every entry stored in the codec registry of a state reachable
through the public operations carries a non-negative core count and a
codec type different from the unknown value. -/
theorem registryEntriesValid (s : VCMDecoderDataBase) (p : Nat)
    (item : VCMDecoderMapItem) (hr : Reachable s)
    (h : s.dec_map_ p = some item) :
    0 ≤ item.number_of_cores ∧
    item.settings.codecType ≠ VideoCodecType.kVideoCodecUnknown :=
  ((reachable_good s hr).2 p item h).2

/-- Witness for C9 at a concrete reachable state with one registry entry. -/
theorem registryEntriesValid_witness :
    0 ≤ ({ settings := exCfg96, number_of_cores := 1,
           require_key_frame := false } : VCMDecoderMapItem).number_of_cores ∧
    ({ settings := exCfg96, number_of_cores := 1,
       require_key_frame := false } : VCMDecoderMapItem).settings.codecType ≠
      VideoCodecType.kVideoCodecUnknown :=
  registryEntriesValid exS2 96
    { settings := exCfg96, number_of_cores := 1, require_key_frame := false }
    (Reachable.registerReceiveCodec exS1 exCfg96 1 false
      (Reachable.registerExternalDecoder VCMDecoderDataBase.initial ⟨5⟩ 96
        Reachable.initial))
    (by decide)

/-- C10: whenever no decoder is cached, GetDecoder for a frame with the
wildcard payload type 0 returns null; the freshly constructed database has
no cached decoder and its cached config has payload type 0. -/
theorem getDecoder_wildcard_uncached (s : VCMDecoderDataBase) (env : Env)
    (frame : VCMEncodedFrame) (h1 : s.ptr_decoder_ = none)
    (h2 : frame.payloadType = 0) :
    (s.GetDecoder env frame).1 = none ∧
    VCMDecoderDataBase.initial.ptr_decoder_ = none ∧
    VCMDecoderDataBase.initial.receive_codec_.plType = 0 := by
  refine ⟨?_, rfl, rfl⟩
  rw [getDecoder_hit_eq s env frame (Or.inr h2)]
  exact h1

/-- Witness for C10 at the initial state. -/
theorem getDecoder_wildcard_uncached_witness :
    (VCMDecoderDataBase.initial.GetDecoder exEnv exFrame0).1 = none :=
  (getDecoder_wildcard_uncached VCMDecoderDataBase.initial exEnv exFrame0
    rfl rfl).1

/-- C4 (amended): DeregisterExternalDecoder returns false with no state
change when no binding exists; otherwise it returns true, evicts the
cached decoder exactly when that decoder is identity-equal to the bound
engine, removes the receive-codec registry entry for p through the
cascaded deregistration, and removes the binding; in every reachable
state, for p different from the wildcard 0, a later GetDecoder for p then
returns null with a lookup miss.  For p = 0 the later call can instead hit
the wildcard cache path and return a surviving engine (see the
counterexample). -/
theorem deregisterExternalDecoder_spec (s : VCMDecoderDataBase) (p : Nat)
    (ext : VCMExtDecoderMapItem) (env : Env) (frame : VCMEncodedFrame)
    (hr : Reachable s) (hf : frame.payloadType = p) :
    (s.dec_external_map_ p = none → s.DeregisterExternalDecoder p = (false, s)) ∧
    (s.dec_external_map_ p = some ext →
      (s.DeregisterExternalDecoder p).1 = true ∧
      (s.DeregisterExternalDecoder p).2.ptr_decoder_ =
        (if matchesCachedDecoder s.ptr_decoder_ ext.external_decoder_instance then
          none
         else s.ptr_decoder_) ∧
      (s.DeregisterExternalDecoder p).2.dec_map_ p = none ∧
      (s.DeregisterExternalDecoder p).2.dec_external_map_ p = none ∧
      (p ≠ 0 → ((s.DeregisterExternalDecoder p).2.GetDecoder env frame).1 = none)) := by
  constructor
  · exact deregisterExternalDecoder_absent s p
  · intro h
    have he := deregisterExternalDecoder_found s p ext h
    refine ⟨by rw [he], ?_, ?_, ?_, ?_⟩
    · rw [he]
      show ((if matchesCachedDecoder s.ptr_decoder_ ext.external_decoder_instance then
              { s with ptr_decoder_ := none }
            else s).DeregisterReceiveCodec p).2.ptr_decoder_ = _
      rw [deregisterReceiveCodec_ptr]
      cases hc : matchesCachedDecoder s.ptr_decoder_ ext.external_decoder_instance
      · simp [hc]
      · simp [hc]
    · rw [he]
      exact deregisterReceiveCodec_map_self _ p
    · rw [he]
      simp
    · intro hp0
      have hg1 : GoodState (if matchesCachedDecoder s.ptr_decoder_
          ext.external_decoder_instance then { s with ptr_decoder_ := none } else s) := by
        split
        · exact goodState_congr _ _ rfl rfl (reachable_good s hr)
        · exact reachable_good s hr
      have hrc := deregisterReceiveCodec_rc_ne _ p hp0 hg1.1
      rw [he]
      apply getDecoder_null_of_no_entry
      · rw [hf]
        exact hp0
      · rw [hf]
        exact fun hh => hrc hh.symm
      · rw [hf]
        exact deregisterReceiveCodec_map_self _ p

/-- Witness for C4: deregistering the external binding for payload 96 in a
reachable state with that binding returns true and a later GetDecoder for
96 returns null. -/
theorem deregisterExternalDecoder_spec_witness :
    (exS1.DeregisterExternalDecoder 96).1 = true ∧
    ((exS1.DeregisterExternalDecoder 96).2.GetDecoder exEnv exFrame96).1 = none := by
  have h := (deregisterExternalDecoder_spec exS1 96
    { payload_type := 96, external_decoder_instance := ⟨5⟩ } exEnv exFrame96
    (Reachable.registerExternalDecoder VCMDecoderDataBase.initial ⟨5⟩ 96
      Reachable.initial)
    rfl).2 (by decide)
  exact ⟨h.1, h.2.2.2.2 (by decide)⟩

/-- C4 counterexample: deregistering the external binding for the wildcard
payload type 0 returns true, yet the later GetDecoder for payload type 0
does not fail with a lookup miss — it returns the surviving cached engine
through the wildcard cache-hit path. -/
theorem deregisterExternalDecoder_wildcard_cex :
    (exU5.DeregisterExternalDecoder 0).1 = true ∧
    ((exU5.DeregisterExternalDecoder 0).2.GetDecoder exEnv exFrame0).1 =
      some { decoderId := 5, isExternal := true } := by
  exact ⟨by decide, by decide⟩

/-- C5 (amended): whenever GetDecoder fails it returns null and afterwards
the active-decoder slot is empty; moreover the cached config is guaranteed
zeroed whenever an engine was cached on entry.  When no engine was cached
on entry, a resolution or initialization failure leaves the previous
cached config value in place (see the counterexample), so the claim as
stated is too strong there. -/
theorem getDecoder_failure_clean (s : VCMDecoderDataBase) (env : Env)
    (frame : VCMEncodedFrame) (h : (s.GetDecoder env frame).1 = none) :
    (s.GetDecoder env frame).2.1.ptr_decoder_ = none ∧
    (s.ptr_decoder_.isSome = true →
      (s.GetDecoder env frame).2.1.receive_codec_ = VideoCodec.zero) := by
  by_cases hh : frame.payloadType = s.receive_codec_.plType ∨ frame.payloadType = 0
  · have he := getDecoder_hit_eq s env frame hh
    rw [he] at h ⊢
    have hp : s.ptr_decoder_ = none := h
    refine ⟨hp, ?_⟩
    intro hs
    rw [hp] at hs
    simp at hs
  · rcases hcr : s.evicted.CreateAndInitDecoder env frame with ⟨r, m, evs⟩
    cases r with
    | none =>
        rw [getDecoder_miss_fail s env frame hh m evs hcr]
        exact ⟨evicted_ptr s, fun hs => evicted_rc_of_cached s hs⟩
    | some pr =>
        obtain ⟨dec, nc⟩ := pr
        rw [getDecoder_miss_some s env frame hh dec nc m evs hcr] at h ⊢
        split at h
        · rename_i hcb
          rw [if_pos hcb]
          exact ⟨rfl, fun _ => rfl⟩
        · simp at h

/-- Witness for C5: a failing GetDecoder on the empty database leaves the
slot empty. -/
theorem getDecoder_failure_clean_witness :
    (VCMDecoderDataBase.initial.GetDecoder exEnv exFrame96).2.1.ptr_decoder_ =
      none :=
  (getDecoder_failure_clean VCMDecoderDataBase.initial exEnv exFrame96
    (by decide)).1

/-- C5 counterexample: in the reachable state exT5 no engine is cached but
the cached config still records payload type 96; the failing GetDecoder
for payload type 97 returns null yet leaves that stale cached config in
place, so the cached config is not cleared as the claim requires. -/
theorem getDecoder_failure_stale_config_cex :
    Reachable exT5 ∧
    exT5.ptr_decoder_ = none ∧
    (exT5.GetDecoder exEnv exFrame97).1 = none ∧
    (exT5.GetDecoder exEnv exFrame97).2.1.receive_codec_.plType = 96 := by
  refine ⟨?_, by decide, by decide, by decide⟩
  exact Reachable.deregisterExternalDecoder exT4 97
    (Reachable.registerExternalDecoder exS3 ⟨5⟩ 97
      (Reachable.getDecoder exS2 exEnv exFrame96
        (Reachable.registerReceiveCodec exS1 exCfg96 1 false
          (Reachable.registerExternalDecoder VCMDecoderDataBase.initial ⟨5⟩ 96
            Reachable.initial))))

/-- C7 (amended): in every reachable state, for every payload type p
other than the wildcard 0 with no entry in the codec registry, GetDecoder
for a frame with payload type p returns null even when an external decoder
binding for p exists: the binding is only consulted after a registry entry
is found.  At p = 0 the wildcard cache-hit path can return a cached engine
without any registry entry (see the counterexample). -/
theorem getDecoder_requires_registry_entry (s : VCMDecoderDataBase) (env : Env)
    (frame : VCMEncodedFrame) (ext : VCMExtDecoderMapItem) (hr : Reachable s)
    (h0 : frame.payloadType ≠ 0)
    (hmap : s.dec_map_ frame.payloadType = none)
    (hext : s.dec_external_map_ frame.payloadType = some ext) :
    (s.GetDecoder env frame).1 = none := by
  have hg := reachable_good s hr
  have hne : frame.payloadType ≠ s.receive_codec_.plType := by
    intro he
    have hrc : s.receive_codec_.plType ≠ 0 := by
      rw [← he]
      exact h0
    have hsome := hg.1 hrc
    rw [← he, hmap] at hsome
    simp at hsome
  exact getDecoder_null_of_no_entry s env frame h0 hne hmap

/-- Witness for C7: with only an external binding for payload 96 and no
registry entry, GetDecoder returns null. -/
theorem getDecoder_requires_registry_entry_witness :
    (exS1.GetDecoder exEnv exFrame96).1 = none :=
  getDecoder_requires_registry_entry exS1 exEnv exFrame96
    { payload_type := 96, external_decoder_instance := ⟨5⟩ }
    (Reachable.registerExternalDecoder VCMDecoderDataBase.initial ⟨5⟩ 96
      Reachable.initial)
    (by decide) (by decide) (by decide)

/-- C7 counterexample: the reachable state exV5 has no registry entry for
payload type 0 but does have an external binding for it, and GetDecoder
for a frame with payload type 0 returns the stale cached engine rather
than null, so the claim fails at the wildcard payload type. -/
theorem getDecoder_wildcard_external_cex :
    Reachable exV5 ∧
    exV5.dec_map_ 0 = none ∧
    exV5.dec_external_map_ 0 =
      some { payload_type := 0, external_decoder_instance := ⟨7⟩ } ∧
    (exV5.GetDecoder exEnv exFrame0).1 =
      some { decoderId := 5, isExternal := true } := by
  refine ⟨?_, by decide, by decide, by decide⟩
  exact Reachable.registerExternalDecoder exS4 ⟨7⟩ 0
    (Reachable.deregisterReceiveCodec exS3 96
      (Reachable.getDecoder exS2 exEnv exFrame96
        (Reachable.registerReceiveCodec exS1 exCfg96 1 false
          (Reachable.registerExternalDecoder VCMDecoderDataBase.initial ⟨5⟩ 96
            Reachable.initial))))

/-- C8: during a GetDecoder cache miss whose engine resolution succeeds,
the registry-owned entry for the frame payload type has its width and
height overwritten in place with the frame values when both are positive,
and is left unchanged when either is 0; the patch happens before
InitDecode, whose call carries the patched settings as the first
collaborator call of the request. -/
theorem getDecoder_patches_registry (s : VCMDecoderDataBase) (env : Env)
    (frame : VCMEncodedFrame) (item : VCMDecoderMapItem)
    (h0 : frame.payloadType ≠ 0)
    (h1 : frame.payloadType ≠ s.receive_codec_.plType)
    (hitem : s.dec_map_ frame.payloadType = some item)
    (hres : (resolveEngine env s frame.payloadType item).isSome = true) :
    (frame.encodedWidth > 0 ∧ frame.encodedHeight > 0 →
      (s.GetDecoder env frame).2.1.dec_map_ frame.payloadType =
        some { item with
               settings := { item.settings with
                             width := frame.encodedWidth
                             height := frame.encodedHeight } }) ∧
    (¬(frame.encodedWidth > 0 ∧ frame.encodedHeight > 0) →
      (s.GetDecoder env frame).2.1.dec_map_ frame.payloadType = some item) ∧
    ((s.GetDecoder env frame).2.2).head? =
      some (Event.initDecode (patchItem frame item).settings
        item.number_of_cores) := by
  have hmiss : ¬(frame.payloadType = s.receive_codec_.plType ∨
      frame.payloadType = 0) := fun hor => hor.elim h1 h0
  obtain ⟨dec, hdec⟩ := Option.isSome_iff_exists.mp hres
  have hitem1 : s.evicted.dec_map_ frame.payloadType = some item := by
    rw [evicted_dec_map]
    exact hitem
  have hres1 : resolveEngine env s.evicted frame.payloadType item = some dec := by
    rw [resolveEngine_congr s s.evicted env frame.payloadType item
      (evicted_ext_map s)]
    exact hdec
  have he := createAndInitDecoder_resolved s.evicted env frame item dec
    hitem1 hres1
  have hmain : (s.GetDecoder env frame).2.1.dec_map_ frame.payloadType =
      some (patchItem frame item) ∧
      ((s.GetDecoder env frame).2.2).head? =
        some (Event.initDecode (patchItem frame item).settings
          (patchItem frame item).number_of_cores) := by
    split at he
    · rw [getDecoder_miss_fail s env frame hmiss _ _ he]
      constructor
      · simp
      · rfl
    · rw [getDecoder_miss_some s env frame hmiss dec
        (patchItem frame item).settings _ _ he]
      split
      · exact ⟨by simp, rfl⟩
      · exact ⟨by simp, rfl⟩
  refine ⟨?_, ?_, ?_⟩
  · intro hwh
    rw [hmain.1]
    simp [patchItem, hwh]
  · intro hwh
    rw [hmain.1]
    simp [patchItem, hwh]
  · rw [← patchItem_cores frame item]
    exact hmain.2

/-- Witness for C8: the cache-miss request for payload 96 with a 640x480
frame patches the registry entry for 96 in place. -/
theorem getDecoder_patches_registry_witness :
    (exS2.GetDecoder exEnv exFrame96).2.1.dec_map_ 96 =
      some { settings := { plType := 96,
                           codecType := VideoCodecType.kVideoCodecH264,
                           width := 640, height := 480 },
             number_of_cores := 1, require_key_frame := false } :=
  (getDecoder_patches_registry exS2 exEnv exFrame96
    { settings := exCfg96, number_of_cores := 1, require_key_frame := false }
    (by decide) (by decide) (by decide) (by decide)).1 (by decide)
